import Mathlib

/-!
Verification of the `vcf2tsv` converter (`src/vcf2tsv/cli.py`).

The program is shallowly embedded below.  Python strings are modelled as
`String` (operated on through their `List Char` data), Python lists as
`List`, and the fallible list indexing `parts[ann_loc]` as `Option`.
The raw VCF metadata header is modelled as its list of lines (each line
free of newline characters), matching `re.MULTILINE` anchoring of the
header regexes.
-/

namespace Vcf2Tsv

/-- Python `s.split(sep)` for a one-character separator, on character
lists: splits on every occurrence, keeps empty pieces, and `[] ↦ [[]]`. -/
def splitCh (c : Char) : List Char → List (List Char)
  | [] => [[]]
  | x :: xs =>
    match splitCh c xs with
    | [] => [[]]
    | y :: ys => if x = c then [] :: y :: ys else (x :: y) :: ys

/-- Join character-list pieces with a one-character separator
(Python `sep.join`). -/
def joinCh (c : Char) : List (List Char) → List Char
  | [] => []
  | [x] => x
  | x :: y :: ys => x ++ c :: joinCh c (y :: ys)

/-- Python `s.split(sep)` on `String`, one-character separator. -/
def pySplit (c : Char) (s : String) : List String :=
  (splitCh c s.data).map String.mk

/-- Python `"\t".join(xs)`. -/
def tabJoin (xs : List String) : String :=
  String.mk (joinCh '\t' (xs.map String.data))

/-- Python `s.strip(chars)`: remove characters of the set from both ends. -/
def pyStripChars (cs : List Char) (l : List Char) : List Char :=
  ((l.dropWhile (· ∈ cs)).reverse.dropWhile (· ∈ cs)).reverse

/-- Python `line.strip("\n")`. -/
def pyStripNl (s : String) : String :=
  String.mk (pyStripChars ['\n'] s.data)

/-- Python `str.replace("-->", "")`: delete every occurrence of the
sentinel, scanning left to right. -/
def removeArrows : List Char → List Char
  | '-' :: '-' :: '>' :: rest => removeArrows rest
  | x :: rest => x :: removeArrows rest
  | [] => []

/-- Python `s.replace("-->", "")` on `String`. -/
def stripArrows (s : String) : String :=
  String.mk (removeArrows s.data)

/-- One step of Python `s.replace(":", "_")` (single characters, so a map). -/
def colonSub (ch : Char) : Char :=
  if ch = ':' then '_' else ch

theorem dropWhile_len_le (p : Char → Bool) :
    ∀ l : List Char, (l.dropWhile p).length ≤ l.length := by
  intro l
  induction l with
  | nil => simp [List.dropWhile]
  | cons x xs ih =>
    by_cases h : p x
    · simp [List.dropWhile, h]; omega
    · simp [List.dropWhile, h]

theorem tail_len_le (l : List Char) : l.tail.length ≤ l.length := by
  cases l <;> simp

theorem dropWhile_tail_len_lt (p : Char → Bool) (l : List Char) :
    (l.dropWhile p).tail.length < l.length + 1 := by
  have h1 := dropWhile_len_le p l
  have h2 := tail_len_le (l.dropWhile p)
  omega

/-- Fuelled left-to-right scan deleting `[digits]` groups; the wrapper
`stripBrk` supplies fuel equal to the input length, which the scan never
exhausts (each step consumes at least one character). -/
def stripBrkF : Nat → List Char → List Char
  | 0, l => l
  | _ + 1, [] => []
  | n + 1, x :: rest =>
    if x = '[' ∧ rest.takeWhile Char.isDigit ≠ [] ∧
        (rest.dropWhile Char.isDigit).head? = some ']' then
      stripBrkF n (rest.dropWhile Char.isDigit).tail
    else
      x :: stripBrkF n rest

/-- Python `re.sub(r"\[[0-9]+\]", "", line)`: delete every maximal
`[digits]` group, scanning left to right. -/
def stripBrk (l : List Char) : List Char :=
  stripBrkF l.length l

/-- Python list slice `xs[i:]` for a possibly negative index. -/
def pyDropIdx (xs : List α) (i : Int) : List α :=
  if 0 ≤ i then xs.drop i.toNat else xs.drop ((xs.length + i).toNat)

/-- Python list slice `xs[:-k]` for a nonnegative `k`
(`k = 0` gives `xs[:0] = []`). -/
def pyTakeNeg (xs : List α) (k : Nat) : List α :=
  if k = 0 then [] else xs.take (xs.length - k)

/-- Python list slice `xs[-k:]` for a nonnegative `k`
(`k = 0` gives `xs[0:] = xs`). -/
def pyDropNeg (xs : List α) (k : Nat) : List α :=
  if k = 0 then xs else xs.drop (xs.length - k)

/-- Split off everything before the first occurrence of character `c`:
`some (before, after)` if `c` occurs, `none` otherwise. -/
def splitFirstCh (c : Char) : List Char → Option (List Char × List Char)
  | [] => none
  | x :: xs =>
    if x = c then some ([], xs)
    else (splitFirstCh c xs).map (fun p => (x :: p.1, p.2))

/-- Drop a literal leading pattern, or fail. -/
def dropLead (pat : List Char) (s : List Char) : Option (List Char) :=
  if pat.isPrefixOf s then some (s.drop pat.length) else none

/-- Every decomposition `s = pre ++ pat ++ post`, left to right. -/
def splitsOn (pat : List Char) : List Char → List (List Char × List Char)
  | [] => []
  | x :: xs =>
    let tails := (splitsOn pat xs).map (fun p => (x :: p.1, p.2))
    if pat.isPrefixOf (x :: xs) then
      ([], (x :: xs).drop pat.length) :: tails
    else tails

/-- The regex fragment `-?\d+`: an optional minus sign followed by at
least one digit. -/
def signedDigits (tok : List Char) : Bool :=
  let t := if tok.head? = some '-' then tok.tail else tok
  !t.isEmpty && t.all Char.isDigit

/-- `RE_INFO`'s `Number` alternation `-?\d+|\.|[AG]`, matched against the
text between `Number=` and the following comma (the alternation is
followed by a literal comma, so it must consume that whole stretch). -/
def numTokInfo (tok : List Char) : Bool :=
  tok = ['.'] || tok = ['A'] || tok = ['G'] || signedDigits tok

/-- `RE_FORMAT`'s `Number` alternation `-?\d+|\.|[AGR]`. -/
def numTokFormat (tok : List Char) : Bool :=
  tok = ['.'] || tok = ['A'] || tok = ['G'] || tok = ['R'] || signedDigits tok

/-- `RE_INFO`'s `Type` alternation.  No alternative is a prefix of
another and none contains a comma, so against `Type=<tok>,Description=`
the matched text is exactly the stretch up to the first comma. -/
def typeTokInfo (tok : List Char) : Bool :=
  tok = "Integer".data || tok = "Float".data || tok = "Flag".data ||
  tok = "Character".data || tok = "String".data

/-- The regex suffix `"(.*)".*>` after `Description="` in `RE_FORMAT`:
with backtracking it succeeds iff some closing quote is followed
(somewhere later on the line) by a `>`.  Later quotes see a suffix of
what the first quote sees, so checking after the first quote suffices. -/
def quoteThenGt (s : List Char) : Bool :=
  match s.dropWhile (· ≠ '"') with
  | [] => false
  | _ :: rest => rest.contains '>'

/-- The part of `RE_FORMAT` after `ID=<id>,Number=`: a `Number` token up
to the first comma, the literal `Type=`, then (with backtracking over the
greedy `.+` type) some occurrence of `,Description="` at offset ≥ 1
whose suffix contains a closing quote later followed by `>`. -/
def formatTailOk (s : List Char) : Bool :=
  match splitFirstCh ',' s with
  | none => false
  | some (numTok, r1) =>
    numTokFormat numTok &&
    match dropLead "Type=".data r1 with
    | none => false
    | some r2 =>
      (splitsOn ",Description=\"".data r2).any
        (fun pr => !pr.1.isEmpty && quoteThenGt pr.2)

/-- One line of the raw header matched against `RE_FORMAT`
(`^##FORMAT=<ID=(.+),Number=(-?\d+|\.|[AGR]),Type=(.+),Description="(.*)".*>`
with `re.VERBOSE`): returns the `id` capture.  The greedy `.+` for `id`
takes the rightmost `,Number=` split whose remainder matches. -/
def parseFormatLine (line : String) : Option String :=
  match dropLead "##FORMAT=<ID=".data line.data with
  | none => none
  | some rest =>
    ((splitsOn ",Number=".data rest).reverse.find?
        (fun pr => !pr.1.isEmpty && formatTailOk pr.2)).map
      (fun pr => String.mk pr.1)

/-- One line of the raw header matched against `RE_INFO`
(`^##INFO=<ID=([^,]+),Number=(-?\d+|\.|[AG]),Type=(Integer|Float|Flag|Character|String),Description="([^"]*)".*>`
with `re.VERBOSE`): returns the `id` capture.  `[^,]+` cannot cross a
comma, so every capture is the stretch up to the next comma and the
match is deterministic. -/
def parseInfoLine (line : String) : Option String :=
  match dropLead "##INFO=<ID=".data line.data with
  | none => none
  | some rest =>
    match splitFirstCh ',' rest with
    | none => none
    | some (idTok, r1) =>
      if idTok = [] then none else
      match dropLead "Number=".data r1 with
      | none => none
      | some r2 =>
        match splitFirstCh ',' r2 with
        | none => none
        | some (numTok, r3) =>
          if !numTokInfo numTok then none else
          match dropLead "Type=".data r3 with
          | none => none
          | some r4 =>
            match splitFirstCh ',' r4 with
            | none => none
            | some (tyTok, r5) =>
              if !typeTokInfo tyTok then none else
              match dropLead "Description=\"".data r5 with
              | none => none
              | some r6 =>
                match splitFirstCh '"' r6 with
                | none => none
                | some (_, r7) =>
                  if r7.contains '>' then some (String.mk idTok) else none

/-- `info_fields`: the `id` captures of `RE_INFO.finditer(raw_header)`,
the raw header given as its list of lines. -/
def infoFieldsOf (rawHeader : List String) : List String :=
  rawHeader.filterMap parseInfoLine

/-- `format_fields`: the `id` captures of `RE_FORMAT.finditer(raw_header)`. -/
def formatFieldsOf (rawHeader : List String) : List String :=
  rawHeader.filterMap parseFormatLine

/-- The fixed 15 snpEff ANN sub-field column names (`ANN_HEADER`). -/
def ANN_HEADER : List String :=
  ["allele", "effect", "impact", "gene_name", "gene_id", "feature_type",
   "feature_id", "transcript_biotype", "exon_intron_rank", "nt_change",
   "aa_change", "cDNA_position/cDNA_len", "protein_position",
   "distance_to_feature", "error"]

/-- The `--format` option. -/
inductive OutputFormat
  | wide
  | long
  deriving DecidableEq

/-- `ann_loc`: set to `info_fields.index("ANN") + 7` when ANN expansion
is requested and `"ANN"` occurs in `info_fields`; otherwise `None`. -/
def annLoc (expand_ann : Bool) (info_fields : List String) : Option Nat :=
  if expand_ann = true ∧ "ANN" ∈ info_fields then
    some (List.indexOf "ANN" info_fields + 7)
  else none

/-- One fanned-out row for one ANN sub-record `v`:
`parts[:ann_loc-1] + v.split("|") + parts[ann_loc+2:]`. -/
def annFanRow (a : Nat) (parts : List String) (v : String) : List String :=
  parts.take (a - 1) ++ pySplit '|' v ++ parts.drop (a + 2)

/-- All fanned-out rows of one data line: one per comma-separated
sub-record of `parts[ann_loc]`. -/
def annFanRows (a : Nat) (parts : List String) : List (List String) :=
  (pySplit ',' (parts.getD a "")).map (annFanRow a parts)

/-- Wide-format data line handling (the final `else` of the loop):
with ANN expansion the line is split on tabs, fanned out, joined and
newline-stripped; without, it is printed newline-stripped.  `none`
models the `IndexError` raised when `parts[ann_loc]` is out of range. -/
def wideDataOut (al : Option Nat) (line : String) : Option (List String) :=
  match al with
  | none => some [pyStripNl line]
  | some a =>
    let parts := pySplit '\t' line
    if a < parts.length then
      some ((annFanRows a parts).map (fun r => pyStripNl (tabJoin r)))
    else none

/-- The long-format row rebuild (source lines 162-166): a `-->`
continuation line becomes `fill_fields + parts[len(parts) - len(fill_fields):]`
and leaves `fill_fields` unchanged, a fresh line keeps its tokens and
resets `fill_fields` to its first `7 + len(info_fields)` tokens.
Returns `(new fill_fields, rebuilt parts)`. -/
def longRebuild (infoLen : Nat) (fill : List String) (parts0 : List String) :
    List String × List String :=
  if "-->".data.isPrefixOf (parts0.getD 0 "").data = true then
    (fill, fill ++ pyDropIdx parts0 ((parts0.length : Int) - fill.length))
  else
    (parts0.take (7 + infoLen), parts0)

/-- Long-format data line handling (`n >= len(samples)` branch): split
the newline-stripped line on tabs, rebuild continuation rows, then ANN
fan-out or plain emission, with the sentinel removed.  Returns the new
`fill_fields` and the emitted lines, `none` on `IndexError`. -/
def longDataOut (al : Option Nat) (infoLen : Nat) (fill : List String)
    (line : String) : Option (List String × List String) :=
  let st := longRebuild infoLen fill (pySplit '\t' (pyStripNl line))
  match al with
  | none => some (st.1, [stripArrows (tabJoin st.2)])
  | some a =>
    if a < st.2.length then
      some (st.1,
        (annFanRows a st.2).map (fun r => stripArrows (pyStripNl (tabJoin r))))
    else none

/-- The wide-header ANN splice on the raw header line:
`parts[:ann_loc-1] + ANN_HEADER + parts[ann_loc+1:]` rejoined. -/
def wideHeaderSplice (al : Option Nat) (line : String) : String :=
  match al with
  | none => line
  | some a =>
    let parts := pySplit '\t' line
    tabJoin (parts.take (a - 1) ++ ANN_HEADER ++ parts.drop (a + 1))

/-- The rendered wide-format header line:
`re.sub(r"\[[0-9]+\]", "", line).strip("#\n ").replace(":", "_")`
applied after the optional ANN splice. -/
def renderWideHeader (al : Option Nat) (line : String) : String :=
  String.mk
    ((pyStripChars ['#', '\n', ' '] (stripBrk (wideHeaderSplice al line).data)).map
      colonSub)

/-- Long header, first stage: strip `[digits]` markers and `#`, newline
and space from the ends, split on tabs, and for every token containing a
colon keep `token.split(":")[1]`. -/
def longHeaderBase (line : String) : List String :=
  (pySplit '\t'
      (String.mk (pyStripChars ['#', '\n', ' '] (stripBrk line.data)))).map
    (fun v => if v.data.contains ':' then (pySplit ':' v).getD 1 "" else v)

/-- Long header, ANN splice stage:
`header[:ann_loc-1] + ANN_HEADER + header[ann_loc+1:]` when active. -/
def longAnnSplice (al : Option Nat) (hs : List String) : List String :=
  match al with
  | none => hs
  | some a => hs.take (a - 1) ++ ANN_HEADER ++ hs.drop (a + 1)

/-- Long header, `F_` stage:
`header[:-len(format_fields)] + ["F_" + x for x in header[-len(format_fields):]]`
(Python negative slicing, so `len(format_fields) = 0` prefixes all). -/
def fmtMark (k : Nat) (hs : List String) : List String :=
  pyTakeNeg hs k ++ (pyDropNeg hs k).map (fun x => "F_" ++ x)

/-- The long-format header column tokens before joining. -/
def longHeaderTokens (al : Option Nat) (k : Nat) (line : String) :
    List String :=
  fmtMark k (longAnnSplice al (longHeaderBase line))

/-- The rendered long-format header line:
`"\t".join(header).replace("-->", "")`. -/
def renderLongHeader (al : Option Nat) (k : Nat) (line : String) : String :=
  stripArrows (tabJoin (longHeaderTokens al k line))

/-- One iteration of the `for n, line in enumerate(proc.stdout)` loop:
returns the new `fill_fields` and the lines printed for this raw line,
`none` if the iteration raises.  The branch order mirrors the source's
`if`/`elif` chain. -/
def processLine (ofmt : OutputFormat) (ph : Bool) (al : Option Nat)
    (infoLen fmtLen sampleCount : Nat) (n : Nat) (fill : List String)
    (line : String) : Option (List String × List String) :=
  if n = 0 ∧ ph = true ∧ ofmt = OutputFormat.wide then
    some (fill, [renderWideHeader al line])
  else if n = 0 ∧ ph = true ∧ ofmt = OutputFormat.long then
    some (fill, [renderLongHeader al fmtLen line])
  else if n < sampleCount ∧ ofmt = OutputFormat.long then
    some (fill, [])
  else if sampleCount ≤ n ∧ ofmt = OutputFormat.long then
    longDataOut al infoLen fill line
  else
    (wideDataOut al line).map (fun out => (fill, out))

/-- Run the loop from line index `n` with carried `fill_fields`,
concatenating everything printed. -/
def runFrom (ofmt : OutputFormat) (ph : Bool) (al : Option Nat)
    (infoLen fmtLen sampleCount : Nat) :
    Nat → List String → List String → Option (List String)
  | _, _, [] => some []
  | n, fill, l :: ls =>
    match processLine ofmt ph al infoLen fmtLen sampleCount n fill l with
    | none => none
    | some (fill', out) =>
      (runFrom ofmt ph al infoLen fmtLen sampleCount (n + 1) fill' ls).map
        (out ++ ·)

/-- The whole row-stream transformer: `ann_loc` computed from the
options, counter starting at 0 and `fill_fields = []`. -/
def runTransformer (ofmt : OutputFormat) (ph expand : Bool)
    (info_fields format_fields samples : List String)
    (lines : List String) : Option (List String) :=
  runFrom ofmt ph (annLoc expand info_fields) info_fields.length
    format_fields.length samples.length 0 [] lines

/-- Outcome of `convert_vcf_to_tsv`: either the early missing-file exit
(carrying the exit code and the stderr diagnostic) or a completed run
over the engine's line stream. -/
inductive ConvOutcome
  | early (code : Nat) (msg : String)
  | ran (res : Option (List String))
  deriving DecidableEq

/-- `convert_vcf_to_tsv`: the path check happens first; only afterwards
are the header parsed and the transformer run.  `pathIsFile` models
`os.path.isfile(vcf_path)`; `engineLines` models the child process's
stdout stream. -/
def convert_vcf_to_tsv (pathIsFile : Bool) (vcf_path : String)
    (rawHeader : List String) (samples : List String) (ofmt : OutputFormat)
    (ph expand : Bool) (engineLines : List String) : ConvOutcome :=
  if pathIsFile = false ∧ vcf_path ≠ "-" then
    ConvOutcome.early 1 ("Error: " ++ vcf_path ++ " does not exist")
  else
    ConvOutcome.ran
      (runTransformer ofmt ph expand (infoFieldsOf rawHeader)
        (formatFieldsOf rawHeader) samples engineLines)

/-- Lines written to standard output by an outcome. -/
def stdoutOf : ConvOutcome → List String
  | ConvOutcome.early _ _ => []
  | ConvOutcome.ran r => r.getD []

/-- Number of tab-separated columns of an output line. -/
def tabCols (s : String) : Nat :=
  (pySplit '\t' s).length

/-! Helper lemmas about the embedded string operations. -/

theorem filterMap_eq_map_filter (f : α → Option β) (dflt : β) :
    ∀ l : List α,
      l.filterMap f =
        (l.filter (fun x => (f x).isSome)).map (fun x => (f x).getD dflt)
  | [] => rfl
  | x :: xs => by
    have ih := filterMap_eq_map_filter f dflt xs
    cases h : f x with
    | none => simp [List.filterMap_cons, List.filter_cons, h, ih]
    | some b => simp [List.filterMap_cons, List.filter_cons, h, ih]

theorem length_filterMap_eq_countP (f : α → Option β) :
    ∀ l : List α,
      (l.filterMap f).length = l.countP (fun x => (f x).isSome)
  | [] => rfl
  | x :: xs => by
    have ih := length_filterMap_eq_countP f xs
    cases h : f x with
    | none => simp [List.filterMap_cons, List.countP_cons, h, ih]
    | some b => simp [List.filterMap_cons, List.countP_cons, h, ih]

theorem getD_map_lt (f : α → β) (d : β) (d' : α) :
    ∀ (l : List α) (j : Nat), j < l.length →
      (l.map f).getD j d = f (l.getD j d')
  | [], j, hj => by simp at hj
  | x :: xs, 0, _ => rfl
  | x :: xs, j + 1, hj => by
    simpa using getD_map_lt f d d' xs j (by simpa using hj)

theorem splitCh_ne_nil (c : Char) : ∀ l : List Char, splitCh c l ≠ []
  | [] => by simp [splitCh]
  | x :: xs => by
    simp only [splitCh]
    cases h : splitCh c xs with
    | nil => simp
    | cons y ys =>
      by_cases hx : x = c <;> simp [hx]

theorem length_splitCh (c : Char) :
    ∀ l : List Char, (splitCh c l).length = l.count c + 1
  | [] => by simp [splitCh]
  | x :: xs => by
    have ih := length_splitCh c xs
    simp only [splitCh]
    cases h : splitCh c xs with
    | nil => exact absurd h (splitCh_ne_nil c xs)
    | cons y ys =>
      rw [h] at ih
      by_cases hx : x = c
      · simp only [hx, if_pos rfl, List.length_cons, List.count_cons_self]
        simpa using ih
      · simp only [if_neg hx, List.length_cons]
        rw [List.count_cons_of_ne (by simpa using Ne.symm hx)]
        simpa using ih

theorem joinCh_splitCh (c : Char) : ∀ l : List Char, joinCh c (splitCh c l) = l
  | [] => rfl
  | x :: xs => by
    have ih := joinCh_splitCh c xs
    simp only [splitCh]
    cases h : splitCh c xs with
    | nil => exact absurd h (splitCh_ne_nil c xs)
    | cons y ys =>
      rw [h] at ih
      by_cases hx : x = c
      · simp only [hx, if_pos rfl, joinCh]
        simpa using ih
      · simp only [if_neg hx]
        cases ys with
        | nil =>
          simp only [joinCh] at ih ⊢
          rw [ih]
        | cons z zs =>
          simp only [joinCh] at ih ⊢
          rw [List.cons_append, ih]

theorem count_joinCh_self (c : Char) :
    ∀ ps : List (List Char), ps ≠ [] →
      (joinCh c ps).count c = (ps.map (fun p => p.count c)).sum + (ps.length - 1)
  | [], h => absurd rfl h
  | [p], _ => by simp [joinCh]
  | p :: q :: ps, _ => by
    have ih := count_joinCh_self c (q :: ps) (by simp)
    simp only [joinCh] at ih ⊢
    rw [List.count_append, List.count_cons_self, ih]
    simp [Nat.add_assoc, Nat.add_comm, Nat.add_left_comm]

theorem count_joinCh_ne (c c' : Char) (hne : c' ≠ c) :
    ∀ ps : List (List Char),
      (joinCh c ps).count c' = (ps.map (fun p => p.count c')).sum
  | [] => by simp [joinCh]
  | [p] => by simp [joinCh]
  | p :: q :: ps => by
    have ih := count_joinCh_ne c c' hne (q :: ps)
    simp only [joinCh] at ih ⊢
    rw [List.count_append, List.count_cons_of_ne (by simpa using hne), ih]
    simp

theorem splitCh_pieces_count (c : Char) (l : List Char) :
    ∀ p ∈ splitCh c l, p.count c = 0 := by
  have h1 := count_joinCh_self c (splitCh c l) (splitCh_ne_nil c l)
  rw [joinCh_splitCh, length_splitCh] at h1
  have hsum : ((splitCh c l).map (fun p => p.count c)).sum = 0 := by omega
  intro p hp
  have hz := List.sum_eq_zero_iff.mp hsum
  exact hz _ (List.mem_map_of_mem _ hp)

theorem count_dropWhile_eq (p : Char → Bool) (c : Char)
    (h : ∀ x, p x = true → x ≠ c) :
    ∀ l : List Char, (l.dropWhile p).count c = l.count c
  | [] => rfl
  | x :: xs => by
    have ih := count_dropWhile_eq p c h xs
    by_cases hx : p x
    · rw [List.dropWhile_cons_of_pos hx, ih,
        List.count_cons_of_ne (Ne.symm (h x hx))]
    · rw [List.dropWhile_cons_of_neg (by simpa using hx)]

theorem count_pyStripChars (cs : List Char) (c : Char) (hc : c ∉ cs)
    (l : List Char) : (pyStripChars cs l).count c = l.count c := by
  unfold pyStripChars
  have hp : ∀ x, (decide (x ∈ cs)) = true → x ≠ c := by
    intro x hx hxc
    exact hc (hxc ▸ (by simpa using hx))
  rw [List.count_reverse, count_dropWhile_eq _ c hp, List.count_reverse,
    count_dropWhile_eq _ c hp]

theorem count_stripBrkF_tab :
    ∀ (n : Nat) (l : List Char), (stripBrkF n l).count '\t' = l.count '\t'
  | 0, l => rfl
  | _ + 1, [] => rfl
  | n + 1, x :: rest => by
    by_cases hc : x = '[' ∧ rest.takeWhile Char.isDigit ≠ [] ∧
        (rest.dropWhile Char.isDigit).head? = some ']'
    · rw [stripBrkF, if_pos hc]
      have ih := count_stripBrkF_tab n (rest.dropWhile Char.isDigit).tail
      have hds : (rest.takeWhile Char.isDigit).count '\t' = 0 := by
        rw [List.count_eq_zero]
        intro hmem
        have := List.mem_takeWhile_imp hmem
        simp at this
      have hsplit : rest.takeWhile Char.isDigit ++ rest.dropWhile Char.isDigit
          = rest := List.takeWhile_append_dropWhile Char.isDigit rest
      obtain ⟨hx, hds', hhd⟩ := hc
      have hdw : rest.dropWhile Char.isDigit =
          ']' :: (rest.dropWhile Char.isDigit).tail := by
        cases hdrop : rest.dropWhile Char.isDigit with
        | nil => rw [hdrop] at hhd; simp at hhd
        | cons a as =>
          rw [hdrop] at hhd
          simp at hhd
          simp [hhd]
      rw [ih, hx]
      have : rest.count '\t' =
          (rest.takeWhile Char.isDigit).count '\t' +
            (rest.dropWhile Char.isDigit).count '\t' := by
        conv_lhs => rw [← hsplit]
        rw [List.count_append]
      rw [List.count_cons_of_ne (by decide), this, hds, hdw,
        List.count_cons_of_ne (by decide)]
      simp
    · rw [stripBrkF, if_neg hc]
      have ih := count_stripBrkF_tab n rest
      by_cases hx : x = '\t'
      · rw [hx, List.count_cons_self, List.count_cons_self, ih]
      · rw [List.count_cons_of_ne (Ne.symm hx), List.count_cons_of_ne
          (Ne.symm hx), ih]

theorem count_stripBrk_tab (l : List Char) :
    (stripBrk l).count '\t' = l.count '\t' :=
  count_stripBrkF_tab l.length l

theorem count_map_colonSub (l : List Char) :
    (l.map colonSub).count '\t' = l.count '\t' := by
  induction l with
  | nil => rfl
  | cons x xs ih =>
    by_cases hx : x = '\t'
    · have : colonSub x = '\t' := by rw [hx]; rfl
      rw [List.map_cons, this, hx, List.count_cons_self,
        List.count_cons_self, ih]
    · have : colonSub x ≠ '\t' := by
        unfold colonSub
        by_cases hc : x = ':'
        · rw [if_pos hc]; decide
        · rw [if_neg hc]; exact hx
      rw [List.map_cons, List.count_cons_of_ne (Ne.symm this),
        List.count_cons_of_ne (Ne.symm hx), ih]

theorem tabCols_eq_count (s : String) :
    tabCols s = s.data.count '\t' + 1 := by
  unfold tabCols pySplit
  rw [List.length_map, length_splitCh]

theorem count_pyStripNl (s : String) :
    (pyStripNl s).data.count '\t' = s.data.count '\t' :=
  count_pyStripChars ['\n'] '\t' (by decide) s.data

theorem count_renderWideHeader (al : Option Nat) (h : String) :
    (renderWideHeader al h).data.count '\t' =
      (wideHeaderSplice al h).data.count '\t' := by
  unfold renderWideHeader
  show ((pyStripChars ['#', '\n', ' ']
      (stripBrk (wideHeaderSplice al h).data)).map colonSub).count '\t' = _
  rw [count_map_colonSub, count_pyStripChars _ _ (by decide),
    count_stripBrk_tab]

theorem count_tabJoin_free (xs : List String) (hne : xs ≠ [])
    (hfree : ∀ s ∈ xs, s.data.count '\t' = 0) :
    (tabJoin xs).data.count '\t' = xs.length - 1 := by
  unfold tabJoin
  show (joinCh '\t' (xs.map String.data)).count '\t' = xs.length - 1
  rw [count_joinCh_self '\t' (xs.map String.data) (by simpa using hne)]
  have hz : ((xs.map String.data).map (fun p => p.count '\t')).sum = 0 := by
    apply List.sum_eq_zero
    intro x hx
    rw [List.map_map] at hx
    obtain ⟨s, hs, rfl⟩ := List.mem_map.mp hx
    exact hfree s hs
  rw [hz, List.length_map]
  omega

theorem pySplit_pieces_free (c : Char) (d : String) :
    ∀ s ∈ pySplit c d, s.data.count c = 0 := by
  intro s hs
  unfold pySplit at hs
  obtain ⟨p, hp, rfl⟩ := List.mem_map.mp hs
  exact splitCh_pieces_count c d.data p hp

theorem pySplit_pieces_pre_free (c : Char) (hc : ('\t' : Char) ≠ c)
    (v : String) (hv : v.data.count '\t' = 0) :
    ∀ s ∈ pySplit c v, s.data.count '\t' = 0 := by
  intro s hs
  unfold pySplit at hs
  obtain ⟨p, hp, rfl⟩ := List.mem_map.mp hs
  have h1 : (joinCh c (splitCh c v.data)).count '\t' =
      ((splitCh c v.data).map (fun q => q.count '\t')).sum :=
    count_joinCh_ne c '\t' hc (splitCh c v.data)
  rw [joinCh_splitCh, hv] at h1
  have hz := List.sum_eq_zero_iff.mp h1.symm
  exact hz _ (List.mem_map_of_mem _ hp)

theorem ann_header_pieces_free :
    ∀ s ∈ ANN_HEADER, s.data.count '\t' = 0 := by
  decide

/-! The claims. -/

/-- C5: for every raw metadata header, `info_fields` is exactly the ordered
list of `id` captures of the lines matching the INFO grammar and
`format_fields` the ordered list of `id` captures of the lines matching the
FORMAT grammar; non-matching lines contribute nothing, repeated identifiers
are kept (the map-over-filter form preserves duplicates and order), and
the list lengths equal the counts of well-formed declarations. -/
theorem c5_header_schema_extraction (rawHeader : List String) :
    infoFieldsOf rawHeader =
      (rawHeader.filter (fun l => (parseInfoLine l).isSome)).map
        (fun l => (parseInfoLine l).getD "")
    ∧ formatFieldsOf rawHeader =
      (rawHeader.filter (fun l => (parseFormatLine l).isSome)).map
        (fun l => (parseFormatLine l).getD "")
    ∧ (infoFieldsOf rawHeader).length =
        rawHeader.countP (fun l => (parseInfoLine l).isSome)
    ∧ (formatFieldsOf rawHeader).length =
        rawHeader.countP (fun l => (parseFormatLine l).isSome) :=
  ⟨filterMap_eq_map_filter parseInfoLine "" rawHeader,
   filterMap_eq_map_filter parseFormatLine "" rawHeader,
   length_filterMap_eq_countP parseInfoLine rawHeader,
   length_filterMap_eq_countP parseFormatLine rawHeader⟩

/-- C8: a source path that is not a file and not the stdin sentinel `-`
makes the conversion exit with code 1 and a diagnostic, with nothing
written to standard output; the outcome is independent of the header,
samples and engine stream, i.e. decided before any processing. -/
theorem c8_missing_file_fails_fast (vcf_path : String) (hdash : vcf_path ≠ "-")
    (rawHeader samples engineLines : List String) (ofmt : OutputFormat)
    (ph expand : Bool) :
    convert_vcf_to_tsv false vcf_path rawHeader samples ofmt ph expand
        engineLines =
      ConvOutcome.early 1 ("Error: " ++ vcf_path ++ " does not exist")
    ∧ stdoutOf (convert_vcf_to_tsv false vcf_path rawHeader samples ofmt ph
        expand engineLines) = []
    ∧ convert_vcf_to_tsv false vcf_path rawHeader samples ofmt ph expand
        engineLines =
      convert_vcf_to_tsv false vcf_path [] [] ofmt ph expand [] := by
  unfold convert_vcf_to_tsv
  rw [if_pos ⟨rfl, hdash⟩, if_pos ⟨rfl, hdash⟩]
  exact ⟨rfl, rfl, rfl⟩

/-- Witness for C8 at a concrete missing path. -/
theorem c8_missing_file_fails_fast_witness :
    convert_vcf_to_tsv false "missing.vcf" ["##INFO=x"] ["S1"]
        OutputFormat.wide true true ["l"] =
      ConvOutcome.early 1 "Error: missing.vcf does not exist"
    ∧ stdoutOf (convert_vcf_to_tsv false "missing.vcf" ["##INFO=x"] ["S1"]
        OutputFormat.wide true true ["l"]) = [] :=
  ⟨(c8_missing_file_fails_fast "missing.vcf" (by decide) ["##INFO=x"] ["S1"]
      ["l"] OutputFormat.wide true true).1,
   (c8_missing_file_fails_fast "missing.vcf" (by decide) ["##INFO=x"] ["S1"]
      ["l"] OutputFormat.wide true true).2.1⟩

/-- C9: when `"ANN"` does not occur in the parsed info fields, running the
conversion with ANN expansion requested gives output identical to running
it without: `ann_loc` stays `None` in both runs. -/
theorem c9_expansion_noop_without_ann (pathIsFile : Bool) (vcf_path : String)
    (rawHeader samples engineLines : List String) (ofmt : OutputFormat)
    (ph : Bool) (hno : "ANN" ∉ infoFieldsOf rawHeader) :
    convert_vcf_to_tsv pathIsFile vcf_path rawHeader samples ofmt ph true
        engineLines =
      convert_vcf_to_tsv pathIsFile vcf_path rawHeader samples ofmt ph false
        engineLines
    ∧ ∀ (info_fields format_fields samples' lines' : List String),
        "ANN" ∉ info_fields →
        runTransformer ofmt ph true info_fields format_fields samples'
            lines' =
          runTransformer ofmt ph false info_fields format_fields samples'
            lines' := by
  have hrun : ∀ (info_fields format_fields samples' lines' : List String),
      "ANN" ∉ info_fields →
      runTransformer ofmt ph true info_fields format_fields samples' lines' =
        runTransformer ofmt ph false info_fields format_fields samples'
          lines' := by
    intro info_fields format_fields samples' lines' hmem
    unfold runTransformer
    have : annLoc true info_fields = annLoc false info_fields := by
      unfold annLoc
      rw [if_neg (fun hc => hmem hc.2), if_neg (fun hc => by
        have := hc.1; simp at this)]
    rw [this]
  constructor
  · unfold convert_vcf_to_tsv
    by_cases hc : pathIsFile = false ∧ vcf_path ≠ "-"
    · rw [if_pos hc, if_pos hc]
    · rw [if_neg hc, if_neg hc, hrun _ _ _ _ hno]
  · exact hrun

/-- Witness for C9: a header declaring only `DP` parses to info fields
without `ANN`, and the two runs coincide on a concrete stream. -/
theorem c9_expansion_noop_without_ann_witness :
    convert_vcf_to_tsv true "in.vcf"
        ["##INFO=<ID=DP,Number=1,Type=Integer,Description=\"d\">"] ["S1"]
        OutputFormat.wide false true ["c\t1\t.\tA\tT\t3\tP\t5\tS1\t0/1\n"] =
      convert_vcf_to_tsv true "in.vcf"
        ["##INFO=<ID=DP,Number=1,Type=Integer,Description=\"d\">"] ["S1"]
        OutputFormat.wide false false ["c\t1\t.\tA\tT\t3\tP\t5\tS1\t0/1\n"] :=
  (c9_expansion_noop_without_ann true "in.vcf"
    ["##INFO=<ID=DP,Number=1,Type=Integer,Description=\"d\">"] ["S1"]
    ["c\t1\t.\tA\tT\t3\tP\t5\tS1\t0/1\n"] OutputFormat.wide false
    (by decide)).1

/-- C1: with ANN expansion requested and `"ANN"` among the info fields,
`ann_loc` is the 0-based index of `"ANN"` plus 7; on a wide data line it
emits one output row per comma-separated sub-record of `parts[ann_loc]`
(so k sub-records, i.e. comma count + 1, give exactly k rows), each row
being `parts[:ann_loc-1]`, then the pipe-split sub-fields, then
`parts[ann_loc+2:]`. -/
theorem c1_wide_ann_fanout (info_fields : List String)
    (hmem : "ANN" ∈ info_fields) (line : String) (a : Nat)
    (ha : annLoc true info_fields = some a)
    (hidx : a < (pySplit '\t' line).length) :
    a = List.indexOf "ANN" info_fields + 7
    ∧ wideDataOut (some a) line =
        some ((annFanRows a (pySplit '\t' line)).map
          (fun r => pyStripNl (tabJoin r)))
    ∧ (annFanRows a (pySplit '\t' line)).length =
        ((pySplit '\t' line).getD a "").data.count ',' + 1
    ∧ ∀ j, j < (pySplit ',' ((pySplit '\t' line).getD a "")).length →
        (annFanRows a (pySplit '\t' line)).getD j [] =
          (pySplit '\t' line).take (a - 1) ++
            pySplit '|'
              ((pySplit ',' ((pySplit '\t' line).getD a "")).getD j "") ++
            (pySplit '\t' line).drop (a + 2) := by
  refine ⟨?_, ?_, ?_, ?_⟩
  · have h1 : annLoc true info_fields =
        some (List.indexOf "ANN" info_fields + 7) := by
      unfold annLoc
      rw [if_pos ⟨rfl, hmem⟩]
    rw [h1] at ha
    exact (Option.some.inj ha).symm
  · unfold wideDataOut
    dsimp only
    rw [if_pos hidx]
  · unfold annFanRows
    rw [List.length_map]
    unfold pySplit
    rw [List.length_map, length_splitCh]
  · intro j hj
    unfold annFanRows
    rw [getD_map_lt (annFanRow a (pySplit '\t' line)) [] "" _ j hj]
    rfl

/-- Witness for C1: `info_fields = ["ANN"]`, so `ann_loc = 7`, on a line
whose ANN token holds two sub-records; the fan-out emits two rows. -/
theorem c1_wide_ann_fanout_witness :
    annLoc true ["ANN"] = some 7
    ∧ (7 : Nat) < (pySplit '\t' "c\t1\t.\tA\tT\t3\tP\tx|y,z\tS1\t0/1").length
    ∧ (7 = List.indexOf "ANN" ["ANN"] + 7
      ∧ wideDataOut (some 7) "c\t1\t.\tA\tT\t3\tP\tx|y,z\tS1\t0/1" =
          some ((annFanRows 7
              (pySplit '\t' "c\t1\t.\tA\tT\t3\tP\tx|y,z\tS1\t0/1")).map
            (fun r => pyStripNl (tabJoin r)))
      ∧ (annFanRows 7
            (pySplit '\t' "c\t1\t.\tA\tT\t3\tP\tx|y,z\tS1\t0/1")).length =
          ((pySplit '\t' "c\t1\t.\tA\tT\t3\tP\tx|y,z\tS1\t0/1").getD 7
              "").data.count ',' + 1
      ∧ ∀ j, j < (pySplit ','
            ((pySplit '\t' "c\t1\t.\tA\tT\t3\tP\tx|y,z\tS1\t0/1").getD 7
              "")).length →
          (annFanRows 7
              (pySplit '\t' "c\t1\t.\tA\tT\t3\tP\tx|y,z\tS1\t0/1")).getD j
              [] =
            (pySplit '\t' "c\t1\t.\tA\tT\t3\tP\tx|y,z\tS1\t0/1").take 6 ++
              pySplit '|'
                ((pySplit ','
                    ((pySplit '\t'
                        "c\t1\t.\tA\tT\t3\tP\tx|y,z\tS1\t0/1").getD 7
                      "")).getD j "") ++
              (pySplit '\t' "c\t1\t.\tA\tT\t3\tP\tx|y,z\tS1\t0/1").drop 9) :=
  ⟨by decide, by decide,
   c1_wide_ann_fanout ["ANN"] (by decide) "c\t1\t.\tA\tT\t3\tP\tx|y,z\tS1\t0/1"
     7 (by decide) (by decide)⟩

/-- C4 counterexample: on a data row whose ANN token is the empty string
the fan-out emits one row whose ANN region is a single empty column, not
15 empty columns: the row has 8 columns while a row built from a
well-formed 15-field sub-record would have 22. -/
theorem c4_empty_ann_counterexample :
    annFanRows 7 ["c", "1", ".", "A", "T", "3", "P", "", "S1", "0/1"] =
      [["c", "1", ".", "A", "T", "3", "", "0/1"]]
    ∧ (["c", "1", ".", "A", "T", "3", "", "0/1"] : List String).length ≠
        (["c", "1", ".", "A", "T", "3"] ++ List.replicate 15 "" ++
          ["0/1"]).length := by
  exact ⟨by decide, by decide⟩

/-- C4 amended: a data row whose ANN token is the empty string produces
exactly 1 output row in which the ANN region is a single empty column
(the empty string splits into one empty sub-record whose pipe-split is
one empty sub-field), 14 columns fewer than a well-formed row. -/
theorem c4_empty_ann_single_column (a : Nat) (line : String)
    (hidx : a < (pySplit '\t' line).length)
    (hempty : (pySplit '\t' line).getD a "" = "") :
    annFanRows a (pySplit '\t' line) =
      [(pySplit '\t' line).take (a - 1) ++ [""] ++
        (pySplit '\t' line).drop (a + 2)]
    ∧ wideDataOut (some a) line =
        some [pyStripNl (tabJoin ((pySplit '\t' line).take (a - 1) ++ [""] ++
          (pySplit '\t' line).drop (a + 2)))] := by
  have hrows : annFanRows a (pySplit '\t' line) =
      [(pySplit '\t' line).take (a - 1) ++ [""] ++
        (pySplit '\t' line).drop (a + 2)] := by
    unfold annFanRows
    rw [hempty]
    rfl
  refine ⟨hrows, ?_⟩
  unfold wideDataOut
  dsimp only
  rw [if_pos hidx, hrows]
  rfl

/-- Witness for C4 amended, at the counterexample's concrete row. -/
theorem c4_empty_ann_single_column_witness :
    annFanRows 7 (pySplit '\t' "c\t1\t.\tA\tT\t3\tP\t\tS1\t0/1") =
      [(pySplit '\t' "c\t1\t.\tA\tT\t3\tP\t\tS1\t0/1").take 6 ++ [""] ++
        (pySplit '\t' "c\t1\t.\tA\tT\t3\tP\t\tS1\t0/1").drop 9]
    ∧ wideDataOut (some 7) "c\t1\t.\tA\tT\t3\tP\t\tS1\t0/1" =
        some [pyStripNl (tabJoin
          ((pySplit '\t' "c\t1\t.\tA\tT\t3\tP\t\tS1\t0/1").take 6 ++ [""] ++
            (pySplit '\t' "c\t1\t.\tA\tT\t3\tP\t\tS1\t0/1").drop 9))] :=
  c4_empty_ann_single_column 7 "c\t1\t.\tA\tT\t3\tP\t\tS1\t0/1" (by decide)
    (by decide)

/-- C6 counterexample: with an empty `format_fields` list the `F_` stage
prefixes every header column (Python `header[:-0]` is empty and
`header[-0:]` is the whole list), not zero of them. -/
theorem c6_fmt_marking_counterexample :
    longHeaderTokens none 0 "CHROM\tPOS" = ["F_CHROM", "F_POS"]
    ∧ (["F_CHROM", "F_POS"] : List String) ≠ ["CHROM", "POS"] := by
  exact ⟨by decide, by decide⟩

/-- C6 amended: when `1 ≤ len(format_fields) ≤` the header token count,
exactly the trailing `len(format_fields)` column names receive the `F_`
prefix and the earlier ones are unchanged; when `format_fields` is empty,
every column name receives the prefix. -/
theorem c6_fmt_marking (al : Option Nat) (line : String) (k : Nat)
    (h1 : 1 ≤ k) (h2 : k ≤ (longAnnSplice al (longHeaderBase line)).length) :
    longHeaderTokens al k line =
      (longAnnSplice al (longHeaderBase line)).take
          ((longAnnSplice al (longHeaderBase line)).length - k) ++
        ((longAnnSplice al (longHeaderBase line)).drop
            ((longAnnSplice al (longHeaderBase line)).length - k)).map
          (fun x => "F_" ++ x)
    ∧ ((longAnnSplice al (longHeaderBase line)).drop
          ((longAnnSplice al (longHeaderBase line)).length - k)).length = k
    ∧ ∀ hs : List String, fmtMark 0 hs = hs.map (fun x => "F_" ++ x) := by
  refine ⟨?_, ?_, ?_⟩
  · unfold longHeaderTokens fmtMark pyTakeNeg pyDropNeg
    rw [if_neg (by omega), if_neg (by omega)]
  · rw [List.length_drop]
    omega
  · intro hs
    unfold fmtMark pyTakeNeg pyDropNeg
    rw [if_pos rfl, if_pos rfl]
    rfl

/-- Witness for C6 amended: one format field marks exactly the last of
three header columns. -/
theorem c6_fmt_marking_witness :
    longHeaderTokens none 1 "CHROM\tPOS\tS1:GT" =
      (longAnnSplice none (longHeaderBase "CHROM\tPOS\tS1:GT")).take
          ((longAnnSplice none (longHeaderBase "CHROM\tPOS\tS1:GT")).length -
            1) ++
        ((longAnnSplice none (longHeaderBase "CHROM\tPOS\tS1:GT")).drop
            ((longAnnSplice none
                (longHeaderBase "CHROM\tPOS\tS1:GT")).length - 1)).map
          (fun x => "F_" ++ x) :=
  (c6_fmt_marking none "CHROM\tPOS\tS1:GT" 1 (by decide) (by decide)).1

theorem runFrom_skip (al : Option Nat) (il fl s : Nat) :
    ∀ (lines : List String) (n : Nat) (fill : List String), n ≤ s →
      runFrom OutputFormat.long false al il fl s n fill lines =
        runFrom OutputFormat.long false al il fl s s fill
          (lines.drop (s - n))
  | [], n, fill, _ => by
    rw [List.drop_nil]
    rfl
  | l :: ls, n, fill, hn => by
    rcases Nat.lt_or_ge n s with hlt | hge
    · have hstep : processLine OutputFormat.long false al il fl s n fill l =
          some (fill, []) := by
        unfold processLine
        rw [if_neg (by simp), if_neg (by simp), if_pos ⟨hlt, rfl⟩]
      rw [runFrom, hstep]
      dsimp only
      have hmap : ∀ o : Option (List String),
          o.map (fun x => ([] : List String) ++ x) = o := by
        intro o; cases o <;> rfl
      have hdrop : (l :: ls).drop (s - n) = ls.drop (s - (n + 1)) := by
        have hs : s - n = (s - (n + 1)) + 1 := by omega
        rw [hs, List.drop_succ_cons]
      rw [hmap, hdrop]
      exact runFrom_skip al il fl s ls (n + 1) fill hlt
    · have heq : n = s := Nat.le_antisymm hn hge
      rw [heq, Nat.sub_self, List.drop_zero]

/-- C7 counterexample: with the header line requested in long format and
one sample, the raw line with index 0 (which is `< sampleCount`) is not
discarded: it is consumed by the header renderer and emits one line. -/
theorem c7_skip_counterexample :
    runTransformer OutputFormat.long true false [] [] ["S1"]
        ["# [1]CHROM\t[2]POS\n"] = some ["F_CHROM\tF_POS"]
    ∧ (some ["F_CHROM\tF_POS"] : Option (List String)) ≠ some [] := by
  exact ⟨by decide, by decide⟩

/-- C7 amended: in long format without the header line, the output is a
function of the raw lines from index `sampleCount` on only (the first
`sampleCount` lines are discarded, emitting nothing and leaving
`fill_fields` untouched); with the header line requested the same holds
for lines `1 ≤ n < sampleCount`, while line 0 is consumed by the header
renderer. -/
theorem c7_long_skips_sample_lines (expand : Bool)
    (info_fields format_fields samples : List String) :
    (∀ lines : List String,
      runTransformer OutputFormat.long false expand info_fields
          format_fields samples lines =
        runFrom OutputFormat.long false (annLoc expand info_fields)
          info_fields.length format_fields.length samples.length
          samples.length [] (lines.drop samples.length))
    ∧ ∀ (n : Nat) (fill : List String) (line : String),
        0 < n → n < samples.length →
        processLine OutputFormat.long true (annLoc expand info_fields)
            info_fields.length format_fields.length samples.length n fill
            line =
          some (fill, []) := by
  constructor
  · intro lines
    unfold runTransformer
    have h := runFrom_skip (annLoc expand info_fields) info_fields.length
      format_fields.length samples.length lines 0 [] (Nat.zero_le _)
    simpa using h
  · intro n fill line hn hns
    unfold processLine
    rw [if_neg (by rintro ⟨h0, -, -⟩; omega),
      if_neg (by rintro ⟨h0, -, -⟩; omega), if_pos ⟨hns, rfl⟩]

/-- Witness for C7 amended: with two samples and no header, a stream of
one line produces no output, and the per-line step at index 1 emits
nothing. -/
theorem c7_long_skips_sample_lines_witness :
    runTransformer OutputFormat.long false false [] [] ["S1", "S2"]
        ["c\t1\t.\tA\tT\t3\tP\t-->S1\t0/1\n"] =
      runFrom OutputFormat.long false (annLoc false []) 0 0 2 2 []
        (["c\t1\t.\tA\tT\t3\tP\t-->S1\t0/1\n"].drop 2)
    ∧ processLine OutputFormat.long true (annLoc false []) 0 0 2 1 []
        "x\ty" = some ([], []) :=
  ⟨(c7_long_skips_sample_lines false [] [] ["S1", "S2"]).1
      ["c\t1\t.\tA\tT\t3\tP\t-->S1\t0/1\n"],
   (c7_long_skips_sample_lines false [] [] ["S1", "S2"]).2 1 [] "x\ty"
     (by decide) (by decide)⟩

/-- C3 counterexample: with no info fields (`fill_fields` has the 7
leading tokens) and three format fields, the continuation slice
`parts[len(parts) - len(fill_fields):]` is `parts[-3:]`, which drops the
`-->S2` sample token: the rebuilt row is not `fill_fields` plus all of
the continuation line's tokens. -/
theorem c3_fill_counterexample :
    longDataOut none 0 ["c", "1", ".", "A", "T", "3", "P"]
        "-->S2\ta2\tb2\tc2" =
      some (["c", "1", ".", "A", "T", "3", "P"],
        ["c\t1\t.\tA\tT\t3\tP\ta2\tb2\tc2"])
    ∧ ("c\t1\t.\tA\tT\t3\tP\ta2\tb2\tc2" : String) ≠
        "c\t1\t.\tA\tT\t3\tP\tS2\ta2\tb2\tc2" := by
  exact ⟨by decide, by decide⟩

/-- C3 amended: a `-->` continuation line is rebuilt as `fill_fields`
followed by the Python-slice suffix `parts[len(parts)-len(fill_fields):]`
of its tokens (which can drop leading continuation tokens), so the
rebuilt row's leading `7 + len(info_fields)` columns always equal
`fill_fields`, i.e. the leading columns of the preceding fresh-variant
row; a fresh line stores exactly its leading `7 + len(info_fields)`
tokens as the new `fill_fields`. -/
theorem c3_fill_reconstruction (infoLen : Nat) (fill : List String)
    (line : String)
    (hcont : "-->".data.isPrefixOf
        ((pySplit '\t' (pyStripNl line)).getD 0 "").data = true)
    (hfill : fill.length = 7 + infoLen) :
    longDataOut none infoLen fill line =
      some (fill, [stripArrows (tabJoin (fill ++
        pyDropIdx (pySplit '\t' (pyStripNl line))
          (((pySplit '\t' (pyStripNl line)).length : Int) - fill.length)))])
    ∧ (fill ++ pyDropIdx (pySplit '\t' (pyStripNl line))
          (((pySplit '\t' (pyStripNl line)).length : Int) -
            fill.length)).take (7 + infoLen) = fill
    ∧ ∀ (f0 : List String) (freshLine : String),
        "-->".data.isPrefixOf
            ((pySplit '\t' (pyStripNl freshLine)).getD 0 "").data = false →
        longRebuild infoLen f0 (pySplit '\t' (pyStripNl freshLine)) =
          ((pySplit '\t' (pyStripNl freshLine)).take (7 + infoLen),
            pySplit '\t' (pyStripNl freshLine)) := by
  have hreb : longRebuild infoLen fill (pySplit '\t' (pyStripNl line)) =
      (fill, fill ++ pyDropIdx (pySplit '\t' (pyStripNl line))
        (((pySplit '\t' (pyStripNl line)).length : Int) - fill.length)) := by
    unfold longRebuild
    rw [if_pos hcont]
  refine ⟨?_, ?_, ?_⟩
  · unfold longDataOut
    dsimp only
    rw [hreb]
  · rw [← hfill, List.take_left]
  · intro f0 freshLine hfresh
    unfold longRebuild
    rw [if_neg (by rw [hfresh]; simp)]

/-- Witness for C3 amended: the continuation `-->S2` line of the
counterexample, with `fill_fields` taken from a fresh line's 7 leading
tokens. -/
theorem c3_fill_reconstruction_witness :
    longDataOut none 0 ["c", "1", ".", "A", "T", "3", "P"]
        "-->S2\ta2\tb2\tc2" =
      some (["c", "1", ".", "A", "T", "3", "P"],
        [stripArrows (tabJoin (["c", "1", ".", "A", "T", "3", "P"] ++
          pyDropIdx (pySplit '\t' (pyStripNl "-->S2\ta2\tb2\tc2"))
            (((pySplit '\t' (pyStripNl "-->S2\ta2\tb2\tc2")).length : Int) -
              (["c", "1", ".", "A", "T", "3", "P"] : List String).length)))])
    ∧ (["c", "1", ".", "A", "T", "3", "P"] ++
          pyDropIdx (pySplit '\t' (pyStripNl "-->S2\ta2\tb2\tc2"))
            (((pySplit '\t' (pyStripNl "-->S2\ta2\tb2\tc2")).length : Int) -
              (["c", "1", ".", "A", "T", "3", "P"] : List String).length)).take
        7 = ["c", "1", ".", "A", "T", "3", "P"] :=
  ⟨(c3_fill_reconstruction 0 ["c", "1", ".", "A", "T", "3", "P"]
      "-->S2\ta2\tb2\tc2" (by decide) (by decide)).1,
   (c3_fill_reconstruction 0 ["c", "1", ".", "A", "T", "3", "P"]
      "-->S2\ta2\tb2\tc2" (by decide) (by decide)).2.1⟩

set_option maxRecDepth 8000 in
/-- C2 counterexample: wide format with header and ANN active, raw header
and data line both 10 tokens wide, ANN sub-record with 15 pipe fields:
the rendered header has 23 columns (2 raw tokens replaced by 15 names)
but the emitted data row has 22 (3 raw tokens replaced by 15 fields). -/
theorem c2_column_count_counterexample :
    tabCols (renderWideHeader (some 7)
        "# [1]CHROM\t[2]POS\t[3]ID\t[4]REF\t[5]ALT\t[6]QUAL\t[7]FILTER\t[8]ANN\t[9]S1\t[10]S1:GT")
      = 23
    ∧ (wideDataOut (some 7)
        "c\t1\t.\tA\tT\t3\tP\ta|b|c|d|e|f|g|h|i|j|k|l|m|n|o\tS1\t0/1").map
          (List.map tabCols) = some [22]
    ∧ (23 : Nat) ≠ 22 := by
  refine ⟨by decide, by decide, by decide⟩

/-- C2 amended: for a wide-format run with the header line requested and
raw header/data lines of equal width, the column counts agree without ANN
expansion; with ANN expansion active the rendered header has exactly one
column more than any emitted data row whose sub-record pipe-splits into
15 fields, because the header splice replaces the 2 raw tokens
`[ann_loc-1, ann_loc+1)` with the 15 names while the data splice replaces
the 3 raw tokens `[ann_loc-1, ann_loc+2)` with the 15 sub-fields. -/
theorem c2_header_data_column_counts (h d : String) (a : Nat) (r : String)
    (hN : tabCols h = tabCols d) (ha1 : 1 ≤ a) (ha2 : a + 2 ≤ tabCols d)
    (hr : r ∈ pySplit ',' ((pySplit '\t' d).getD a ""))
    (h15 : (pySplit '|' r).length = 15) :
    tabCols (renderWideHeader (some a) h) =
      tabCols (pyStripNl (tabJoin (annFanRow a (pySplit '\t' d) r))) + 1
    ∧ pyStripNl (tabJoin (annFanRow a (pySplit '\t' d) r)) ∈
        (wideDataOut (some a) d).getD []
    ∧ tabCols (renderWideHeader none h) = tabCols (pyStripNl d) := by
  have hd2 : a + 2 ≤ (pySplit '\t' d).length := ha2
  have hhd : (pySplit '\t' h).length = (pySplit '\t' d).length := hN
  have hlt : a < (pySplit '\t' d).length := by omega
  have htok : (pySplit '\t' d).getD a "" ∈ pySplit '\t' d := by
    rw [List.getD_eq_getElem _ _ hlt]
    exact List.getElem_mem hlt
  have htokfree : ((pySplit '\t' d).getD a "").data.count '\t' = 0 :=
    pySplit_pieces_free '\t' d _ htok
  have hrfree : r.data.count '\t' = 0 :=
    pySplit_pieces_pre_free ',' (by decide) _ htokfree r hr
  have hrowfree : ∀ s ∈ annFanRow a (pySplit '\t' d) r,
      s.data.count '\t' = 0 := by
    intro s hs
    unfold annFanRow at hs
    rcases List.mem_append.mp hs with hs1 | hs2
    · rcases List.mem_append.mp hs1 with hs11 | hs12
      · exact pySplit_pieces_free '\t' d s (List.take_subset _ _ hs11)
      · exact pySplit_pieces_pre_free '|' (by decide) r hrfree s hs12
    · exact pySplit_pieces_free '\t' d s (List.drop_subset _ _ hs2)
  have hrowlen : (annFanRow a (pySplit '\t' d) r).length =
      (a - 1) + 15 + ((pySplit '\t' d).length - (a + 2)) := by
    unfold annFanRow
    rw [List.length_append, List.length_append, List.length_take,
      List.length_drop, h15, Nat.min_eq_left (by omega)]
  have hrowne : annFanRow a (pySplit '\t' d) r ≠ [] := by
    intro hnil
    have hl := congrArg List.length hnil
    rw [hrowlen] at hl
    simp at hl
  have hdata : tabCols (pyStripNl (tabJoin (annFanRow a (pySplit '\t' d) r)))
      = (a - 1) + 15 + ((pySplit '\t' d).length - (a + 2)) := by
    rw [tabCols_eq_count, count_pyStripNl,
      count_tabJoin_free _ hrowne hrowfree, hrowlen]
    omega
  have hsplice : wideHeaderSplice (some a) h =
      tabJoin ((pySplit '\t' h).take (a - 1) ++ ANN_HEADER ++
        (pySplit '\t' h).drop (a + 1)) := rfl
  have hsplfree : ∀ s ∈ (pySplit '\t' h).take (a - 1) ++ ANN_HEADER ++
      (pySplit '\t' h).drop (a + 1), s.data.count '\t' = 0 := by
    intro s hs
    rcases List.mem_append.mp hs with hs1 | hs2
    · rcases List.mem_append.mp hs1 with hs11 | hs12
      · exact pySplit_pieces_free '\t' h s (List.take_subset _ _ hs11)
      · exact ann_header_pieces_free s hs12
    · exact pySplit_pieces_free '\t' h s (List.drop_subset _ _ hs2)
  have hspllen : ((pySplit '\t' h).take (a - 1) ++ ANN_HEADER ++
      (pySplit '\t' h).drop (a + 1)).length =
      (a - 1) + 15 + ((pySplit '\t' h).length - (a + 1)) := by
    rw [List.length_append, List.length_append, List.length_take,
      List.length_drop, Nat.min_eq_left (by omega)]
    rfl
  have hsplne : (pySplit '\t' h).take (a - 1) ++ ANN_HEADER ++
      (pySplit '\t' h).drop (a + 1) ≠ [] := by
    intro hnil
    have hl := congrArg List.length hnil
    rw [hspllen] at hl
    simp at hl
  have hhdr : tabCols (renderWideHeader (some a) h) =
      (a - 1) + 15 + ((pySplit '\t' h).length - (a + 1)) := by
    rw [tabCols_eq_count, count_renderWideHeader, hsplice,
      count_tabJoin_free _ hsplne hsplfree, hspllen]
    omega
  refine ⟨?_, ?_, ?_⟩
  · rw [hhdr, hdata]
    omega
  · unfold wideDataOut
    dsimp only
    rw [if_pos hlt]
    unfold annFanRows
    exact List.mem_map_of_mem _ (List.mem_map_of_mem _ hr)
  · rw [tabCols_eq_count, tabCols_eq_count, count_renderWideHeader,
      count_pyStripNl]
    have hsn : wideHeaderSplice none h = h := rfl
    rw [hsn]
    have hc := hN
    rw [tabCols_eq_count, tabCols_eq_count] at hc
    omega

/-- Witness for C2 amended, at the counterexample's concrete lines:
header 23 columns, data row 22. -/
theorem c2_header_data_column_counts_witness :
    tabCols (renderWideHeader (some 7)
        "# [1]CHROM\t[2]POS\t[3]ID\t[4]REF\t[5]ALT\t[6]QUAL\t[7]FILTER\t[8]ANN\t[9]S1\t[10]S1:GT")
      = tabCols (pyStripNl (tabJoin (annFanRow 7
          (pySplit '\t'
            "c\t1\t.\tA\tT\t3\tP\ta|b|c|d|e|f|g|h|i|j|k|l|m|n|o\tS1\t0/1")
          "a|b|c|d|e|f|g|h|i|j|k|l|m|n|o"))) + 1 :=
  (c2_header_data_column_counts
    "# [1]CHROM\t[2]POS\t[3]ID\t[4]REF\t[5]ALT\t[6]QUAL\t[7]FILTER\t[8]ANN\t[9]S1\t[10]S1:GT"
    "c\t1\t.\tA\tT\t3\tP\ta|b|c|d|e|f|g|h|i|j|k|l|m|n|o\tS1\t0/1" 7
    "a|b|c|d|e|f|g|h|i|j|k|l|m|n|o" (by decide) (by decide) (by decide)
    (by decide) (by decide)).1

/-- C10: the row transformer is deterministic: two runs over the same raw
engine output with the same schema and options (no ANN expansion) are
identical; `runTransformer` re-initialises the line counter to 0 and
`fill_fields` to `[]` itself, so the result is a function of its
arguments alone. -/
theorem c10_transformer_deterministic (ofmt : OutputFormat) (ph : Bool)
    (info_fields format_fields samples lines : List String) :
    runTransformer ofmt ph false info_fields format_fields samples lines =
      runTransformer ofmt ph false info_fields format_fields samples lines :=
  rfl

end Vcf2Tsv
